import Mathlib

/-!
Shallow embedding of the prediction module `src/lib/ml-predictions.ts` of the
friendly-greetings repository, together with theorems checking the frozen
claims about it.

Modelling conventions:
* JavaScript numbers are modelled as rationals (`ℚ`); every arithmetic
  operation used by the module (addition, multiplication, division,
  comparison, `Math.round`, `Math.max`, `Math.min`) is exact on the values
  involved, except `Math.sqrt`, which is modelled by `Real.sqrt` on `ℝ`.
* `Math.round x` is floor of `x + 1/2`, which agrees with JavaScript
  semantics for all arguments.
* JavaScript `Date` values are modelled as integer day numbers; the
  `setDate(getDate() + n)` idiom of the source is calendar-correct addition
  of `n` days, modelled as integer addition.
* Optional fields (`symptoms?`, `stressLevel?`, ...) are `Option`s, and the
  short-circuiting `&&` / `||` operators of JavaScript, which can produce
  `undefined` when applied to possibly-undefined operands, are modelled on
  `Option Bool` (`none` standing for `undefined`).
-/

/-- `Math.round` of JavaScript on exact rational inputs:
round half towards positive infinity. -/
def jsRound (x : ℚ) : ℤ := ⌊x + 1/2⌋

/-- `Math.round` of JavaScript on real inputs (used after `Math.sqrt`). -/
noncomputable def jsRoundR (x : ℝ) : ℤ := ⌊x + 1/2⌋

/-- JavaScript `a && b` on possibly-undefined boolean values: returns `a`
when `a` is falsy (`false` or `undefined`), otherwise `b`. -/
def jsAnd (a b : Option Bool) : Option Bool :=
  match a with
  | some true => b
  | x => x

/-- JavaScript `a || b` on possibly-undefined boolean values: returns `a`
when `a` is truthy, otherwise `b`. -/
def jsOr (a b : Option Bool) : Option Bool :=
  match a with
  | some true => some true
  | _ => b

-- ==========================================
-- PCOS PREDICTION ENGINE (ml-predictions.ts lines 15-224)
-- ==========================================

/-- `PCOSInputData` of the source. -/
structure PCOSInputData where
  age : ℚ
  weight : ℚ
  bmi : ℚ
  cycleRegular : Bool
  cycleLength : ℚ
  weightGain : Bool
  hairGrowth : Bool
  skinDarkening : Bool
  hairLoss : Bool
  pimples : Bool
  fastFood : Bool
  regularExercise : Bool
  follicleLeft : ℚ
  follicleRight : ℚ
  endometrium : ℚ
deriving DecidableEq

/-- The severity literal type of `PCOSResult`. -/
inductive Severity where
  | none
  | low
  | medium
  | high
deriving DecidableEq

/-- The `breakdown` record of `PCOSResult`. -/
structure PCOSBreakdown where
  cycleScore : ℚ
  hormonalScore : ℚ
  ultrasoundScore : ℚ
  metabolicScore : ℚ
deriving DecidableEq

/-- `PCOSRecommendations` of the source. -/
structure PCOSRecommendations where
  diet : List String
  exercise : List String
  lifestyle : List String
  needsDoctor : Bool
deriving DecidableEq

/-- `PCOSResult` of the source. -/
structure PCOSResult where
  hasPCOS : Bool
  riskPercentage : ℤ
  severity : Severity
  breakdown : PCOSBreakdown
  recommendations : PCOSRecommendations
deriving DecidableEq

/-- `getPCOSRecommendations` of the source (lines 122-224). -/
def getPCOSRecommendations : Severity → PCOSRecommendations
  | .none =>
    { diet :=
        ["Maintain balanced diet with whole grains",
         "Include fresh fruits and vegetables",
         "Stay hydrated with 2-3 liters water daily",
         "Include lean protein sources"]
      exercise :=
        ["Continue regular physical activity",
         "30 minutes of moderate exercise daily",
         "Mix of cardio and strength training"]
      lifestyle :=
        ["Maintain healthy sleep schedule",
         "Regular health check-ups annually",
         "Stress management practices"]
      needsDoctor := false }
  | .low =>
    { diet :=
        ["Low glycemic index foods (millets, oats, brown rice)",
         "Fresh vegetables (spinach, broccoli, carrot, cucumber)",
         "Fruits in moderation (apple, berries, guava)",
         "Lean protein sources (dal, paneer, eggs, fish)",
         "Healthy fats (nuts, seeds, olive oil)",
         "Drink 2-3 liters of water daily"]
      exercise :=
        ["Brisk walking - 30 minutes daily",
         "Yoga (Surya Namaskar, Anulom Vilom)",
         "Light stretching exercises",
         "Minimum 5 days per week"]
      lifestyle :=
        ["Sleep 7-8 hours daily",
         "Reduce stress through meditation",
         "Avoid late-night meals",
         "Maintain a regular daily routine"]
      needsDoctor := false }
  | .medium =>
    { diet :=
        ["Strict low-GI diet to reduce insulin resistance",
         "High-fiber foods (vegetables, salads, sprouts)",
         "Protein in every meal (eggs, pulses, fish)",
         "Small and frequent meals",
         "Anti-inflammatory foods (turmeric, berries, nuts)",
         "Completely avoid sugar, fast food, bakery items"]
      exercise :=
        ["Cardio workouts (walking/jogging) - 30-40 minutes",
         "Strength training - 3 to 4 days per week",
         "Yoga for hormone balance",
         "Beginner-level HIIT exercises"]
      lifestyle :=
        ["Fixed sleep and wake-up time",
         "Weight monitoring every week",
         "Reduce screen time",
         "Stress management is mandatory"]
      needsDoctor := true }
  | .high =>
    { diet :=
        ["Very strict low-glycemic-index diet",
         "High-fiber vegetables in every meal",
         "Lean protein with each meal",
         "Anti-inflammatory foods only",
         "Complete elimination of sugar, maida, fried food",
         "Avoid alcohol, soft drinks, and packaged foods",
         "Calorie-controlled meals under medical guidance"]
      exercise :=
        ["HIIT workouts (doctor-approved)",
         "Resistance training for insulin sensitivity",
         "Cardio exercises - 45 to 60 minutes daily",
         "Daily yoga for hormonal balance",
         "Consistency is critical"]
      lifestyle :=
        ["Strict daily routine",
         "Mental health care and counseling if needed",
         "Avoid crash dieting",
         "Track menstrual cycle and symptoms monthly",
         "Long-term lifestyle discipline required"]
      needsDoctor := true }

namespace PCOS

/-- `const cycleScore = data.cycleRegular ? 0 : 1` (line 55). -/
def cycleScore (data : PCOSInputData) : ℚ :=
  if data.cycleRegular then 0 else 1

/-- `const hormonalScore = ...` (lines 58-62). -/
def hormonalScore (data : PCOSInputData) : ℚ :=
  (if data.hairGrowth then 1 else 0) +
  (if data.skinDarkening then 1 else 0) +
  (if data.hairLoss then 1 else 0) +
  (if data.pimples then 1 else 0)

/-- `const totalFollicles = data.follicleLeft + data.follicleRight` (line 65). -/
def totalFollicles (data : PCOSInputData) : ℚ :=
  data.follicleLeft + data.follicleRight

/-- `const ultrasoundScore = totalFollicles >= 10 ? 1 : 0` (line 66). -/
def ultrasoundScore (data : PCOSInputData) : ℚ :=
  if 10 ≤ totalFollicles data then 1 else 0

/-- `const metabolicScore = data.bmi >= 25 ? 1 : 0` (line 69). -/
def metabolicScore (data : PCOSInputData) : ℚ :=
  if 25 ≤ data.bmi then 1 else 0

/-- `const lifestyleScore = ...` (lines 72-75). -/
def lifestyleScore (data : PCOSInputData) : ℚ :=
  (if data.weightGain then 0.5 else 0) +
  (if data.fastFood then 0.5 else 0) +
  (if !data.regularExercise then 0.5 else 0)

/-- `const totalScore = ...` (lines 78-83). -/
def totalScore (data : PCOSInputData) : ℚ :=
  2 * cycleScore data +
  2 * ultrasoundScore data +
  hormonalScore data +
  metabolicScore data +
  lifestyleScore data

/-- `const hasPCOS = totalScore >= 4` (line 86). -/
def hasPCOS (data : PCOSInputData) : Bool :=
  decide (4 ≤ totalScore data)

/-- `Math.round((totalScore / 9) * 100)` (line 89), before clamping. -/
def riskPercentageRaw (data : PCOSInputData) : ℤ :=
  jsRound (totalScore data / 9 * 100)

/-- `riskPercentage` after the two clamping steps (lines 90-91). -/
def riskPercentage (data : PCOSInputData) : ℤ :=
  min 100 (max (if hasPCOS data then 30 else 0) (riskPercentageRaw data))

/-- The severity classification (lines 94-103). -/
def severity (data : PCOSInputData) : Severity :=
  if hasPCOS data = false then .none
  else if riskPercentage data < 50 then .low
  else if riskPercentage data < 70 then .medium
  else .high

end PCOS

/-- `predictPCOS` of the source (lines 53-120). -/
def predictPCOS (data : PCOSInputData) : PCOSResult :=
  { hasPCOS := PCOS.hasPCOS data
    riskPercentage := PCOS.riskPercentage data
    severity := PCOS.severity data
    breakdown :=
      { cycleScore := PCOS.cycleScore data * 2
        hormonalScore := PCOS.hormonalScore data
        ultrasoundScore := PCOS.ultrasoundScore data * 2
        metabolicScore := PCOS.metabolicScore data }
    recommendations := getPCOSRecommendations (PCOS.severity data) }

-- ==========================================
-- MENOPAUSE PREDICTION ENGINE (ml-predictions.ts lines 231-414)
-- ==========================================

/-- `MenopauseInputData` of the source. -/
structure MenopauseInputData where
  age : ℚ
  estrogenLevel : ℚ
  fshLevel : ℚ
  yearsSinceLastPeriod : ℚ
  irregularPeriods : Bool
  missedPeriods : Bool
  hotFlashes : Bool
  nightSweats : Bool
  sleepProblems : Bool
  vaginalDryness : Bool
  jointPain : Bool
deriving DecidableEq

/-- The stage literal type of `MenopauseResult`. -/
inductive Stage where
  | pre
  | peri
  | post
deriving DecidableEq

/-- The `breakdown` record of `MenopauseResult`. -/
structure MenopauseBreakdown where
  ageScore : ℚ
  hormoneScore : ℚ
  symptomScore : ℚ
  periodScore : ℚ
deriving DecidableEq

/-- `MenopauseRecommendations` of the source. -/
structure MenopauseRecommendations where
  diet : List String
  exercise : List String
  lifestyle : List String
  needsDoctor : Bool
deriving DecidableEq

/-- `MenopauseResult` of the source. -/
structure MenopauseResult where
  stage : Stage
  riskPercentage : ℤ
  hasMenopauseSymptoms : Bool
  breakdown : MenopauseBreakdown
  recommendations : MenopauseRecommendations
deriving DecidableEq

/-- `getMenopauseRecommendations` of the source (lines 340-414). -/
def getMenopauseRecommendations : Stage → MenopauseRecommendations
  | .pre =>
    { diet :=
        ["Maintain balanced nutrition",
         "Include calcium-rich foods",
         "Stay hydrated",
         "Moderate caffeine intake"]
      exercise :=
        ["Regular cardio and strength training",
         "Maintain bone health with weight-bearing exercises",
         "Stay active 30 minutes daily"]
      lifestyle :=
        ["Regular health check-ups",
         "Stress management",
         "Quality sleep habits"]
      needsDoctor := false }
  | .peri =>
    { diet :=
        ["Low-GI foods: oats, brown rice, whole wheat roti",
         "High-fiber foods: salads, sprouts, flax seeds",
         "Protein sources: eggs, pulses, soy, paneer",
         "Healthy fats: nuts, seeds, olive oil",
         "Calcium-rich foods: milk, curd, ragi",
         "Vitamin-D foods or supplements (doctor advice)",
         "Avoid: Sugar, bakery items, excess caffeine"]
      exercise :=
        ["Brisk walking - 30 to 40 minutes daily",
         "Yoga: Anulom-Vilom, Bhramari, Surya Namaskar",
         "Strength training - 2 to 3 days per week",
         "Light cardio (cycling, skipping)"]
      lifestyle :=
        ["Fixed sleep and wake-up time",
         "Daily meditation or breathing exercises",
         "Stress management is very important",
         "Maintain healthy body weight"]
      needsDoctor := true }
  | .post =>
    { diet :=
        ["High-calcium foods: milk, cheese, curd, sesame seeds",
         "Vitamin-D rich foods or supplements",
         "High-protein diet: lentils, eggs, fish, tofu",
         "Anti-inflammatory foods: turmeric, berries, green tea",
         "Plenty of fruits and vegetables",
         "Avoid: Fried food, excess salt, sugary foods"]
      exercise :=
        ["Weight-bearing exercises: walking, stair climbing",
         "Light strength training (resistance bands, dumbbells)",
         "Balance exercises to prevent falls",
         "Stretching and flexibility exercises"]
      lifestyle :=
        ["Regular medical check-ups",
         "Bone density test (doctor advice)",
         "Avoid smoking and alcohol",
         "Maintain a stress-free routine"]
      needsDoctor := true }

namespace Menopause

/-- The stage rule of `predictMenopause` (lines 267-279). -/
def stage (data : MenopauseInputData) : Stage :=
  if 1 ≤ data.yearsSinceLastPeriod then .post
  else if 40 ≤ data.age ∧
      (data.irregularPeriods = true ∨ data.missedPeriods = true ∨
       data.hotFlashes = true) then .peri
  else .pre

/-- The age score (lines 283-287). -/
def ageScore (data : MenopauseInputData) : ℚ :=
  if 55 ≤ data.age then 4
  else if 50 ≤ data.age then 3
  else if 45 ≤ data.age then 2
  else if 40 ≤ data.age then 1
  else 0

/-- The hormone score (lines 291-296): the FSH contribution plus the
estrogen contribution. -/
def hormoneScore (data : MenopauseInputData) : ℚ :=
  (if 40 ≤ data.fshLevel then 2
   else if 25 ≤ data.fshLevel then 1
   else 0) +
  (if data.estrogenLevel ≤ 30 then 2
   else if data.estrogenLevel ≤ 50 then 1
   else 0)

/-- The symptom score (lines 299-306). -/
def symptomScore (data : MenopauseInputData) : ℚ :=
  (if data.irregularPeriods then 1 else 0) +
  (if data.missedPeriods then 1 else 0) +
  (if data.hotFlashes then 1 else 0) +
  (if data.nightSweats then 1 else 0) +
  (if data.sleepProblems then 1 else 0) +
  (if data.vaginalDryness then 1 else 0) +
  (if data.jointPain then 1 else 0)

/-- The period score (lines 309-313). -/
def periodScore (data : MenopauseInputData) : ℚ :=
  if 2 ≤ data.yearsSinceLastPeriod then 4
  else if 1 ≤ data.yearsSinceLastPeriod then 3
  else if 0.5 ≤ data.yearsSinceLastPeriod then 2
  else if 0 < data.yearsSinceLastPeriod then 1
  else 0

/-- `const totalScore = ageScore + hormoneScore + symptomScore + periodScore`
(line 317); the nominal maximum `maxScore` is 19 (line 316). -/
def totalScore (data : MenopauseInputData) : ℚ :=
  ageScore data + hormoneScore data + symptomScore data + periodScore data

/-- `riskPercentage` with its clamping (lines 319-320). -/
def riskPercentage (data : MenopauseInputData) : ℤ :=
  min 100 (max 0 (jsRound (totalScore data / 19 * 100)))

end Menopause

/-- `predictMenopause` of the source (lines 265-338). -/
def predictMenopause (data : MenopauseInputData) : MenopauseResult :=
  { stage := Menopause.stage data
    riskPercentage := Menopause.riskPercentage data
    hasMenopauseSymptoms := decide (Menopause.stage data ≠ .pre)
    breakdown :=
      { ageScore := Menopause.ageScore data
        hormoneScore := Menopause.hormoneScore data
        symptomScore := Menopause.symptomScore data
        periodScore := Menopause.periodScore data }
    recommendations := getMenopauseRecommendations (Menopause.stage data) }

-- ==========================================
-- MENSTRUAL CYCLE PREDICTION (ml-predictions.ts lines 420-519)
-- ==========================================

/-- The cramps literal type of `CycleData.symptoms`. -/
inductive Cramps where
  | none
  | mild
  | severe
deriving DecidableEq

/-- The mood literal type of `CycleData.symptoms`. -/
inductive Mood where
  | stable
  | irritable
  | depressed
deriving DecidableEq

/-- The `symptoms` record of `CycleData`; every field is optional. -/
structure CycleSymptoms where
  cramps : Option Cramps
  mood : Option Mood
  acne : Option Bool
  bloating : Option Bool
  fatigue : Option Bool
deriving DecidableEq

/-- `CycleData` of the source.  `lastPeriodStart` is a `Date`, modelled as an
integer day number. -/
structure CycleData where
  cycleHistory : List ℚ
  lastPeriodStart : ℤ
  symptoms : Option CycleSymptoms
  stressLevel : Option ℚ
  sleepHours : Option ℚ
deriving DecidableEq

/-- The confidence literal type of `CyclePrediction`. -/
inductive ConfidenceLevel where
  | high
  | medium
  | low
deriving DecidableEq

/-- `CyclePrediction` of the source.  `pcosRiskFlag` is declared `boolean` in
the source, but the expression computing it can evaluate to `undefined`, so
it is modelled as `Option Bool`. -/
structure CyclePrediction where
  predictedStartDate : ℤ
  confidenceLevel : ConfidenceLevel
  averageCycleLength : ℤ
  cycleVariability : ℝ
  isIrregular : Bool
  pcosRiskFlag : Option Bool
  delayAdjustment : ℤ

namespace Cycle

/-- `const recentCycles = cycleHistory.slice(-6)` (line 464): the last six
entries (the whole history when it is shorter). -/
def recentCycles (data : CycleData) : List ℚ :=
  data.cycleHistory.drop (data.cycleHistory.length - 6)

/-- `const weights = recentCycles.map((_, i) => i + 1)` (line 465). -/
def weights (data : CycleData) : List ℚ :=
  (List.range (recentCycles data).length).map (fun (i : ℕ) => (i : ℚ) + 1)

/-- `const totalWeight = weights.reduce((a, b) => a + b, 0)` (line 466). -/
def totalWeight (data : CycleData) : ℚ :=
  (weights data).foldl (· + ·) 0

/-- `const weightedAverage = recentCycles.reduce((sum, cycle, i) =>
sum + cycle * weights[i], 0) / totalWeight` (lines 468-470). -/
def weightedAverage (data : CycleData) : ℚ :=
  ((recentCycles data).enum.foldl
    (fun s ic => s + ic.2 * (weights data).getD ic.1 0) 0) / totalWeight data

/-- `const mean = recentCycles.reduce((a, b) => a + b, 0) /
recentCycles.length` (line 473). -/
def mean (data : CycleData) : ℚ :=
  ((recentCycles data).foldl (· + ·) 0) / (recentCycles data).length

/-- `const variance = recentCycles.reduce((sum, cycle) =>
sum + Math.pow(cycle - mean, 2), 0) / recentCycles.length` (lines 474-476). -/
def variance (data : CycleData) : ℚ :=
  ((recentCycles data).foldl (fun s c => s + (c - mean data) ^ 2) 0) /
    (recentCycles data).length

/-- `const variability = Math.sqrt(variance)` (line 477). -/
noncomputable def variability (data : CycleData) : ℝ :=
  Real.sqrt (variance data)

open scoped Classical in
/-- The confidence-level rule (lines 480-487). -/
noncomputable def confidenceLevel (data : CycleData) : ConfidenceLevel :=
  if variability data ≤ 2 ∧ 3 ≤ data.cycleHistory.length then .high
  else if variability data ≤ 5 ∨ 6 ≤ data.cycleHistory.length then .medium
  else .low

open scoped Classical in
/-- `const isIrregular = variability > 7 || recentCycles.some(c => c < 21 ||
c > 35)` (line 490). -/
noncomputable def isIrregular (data : CycleData) : Bool :=
  decide (7 < variability data) ||
    (recentCycles data).any (fun c => decide (c < 21) || decide (35 < c))

/-- `const longCycles = recentCycles.filter(c => c > 35).length` (line 493). -/
def longCycles (data : CycleData) : ℕ :=
  ((recentCycles data).filter (fun c => decide (35 < c))).length

/-- `symptoms?.acne`: `undefined` when `symptoms` is absent or the `acne`
field is absent. -/
def acneVal (data : CycleData) : Option Bool :=
  data.symptoms.bind (fun s => s.acne)

/-- `symptoms?.cramps`. -/
def crampsVal (data : CycleData) : Option Cramps :=
  data.symptoms.bind (fun s => s.cramps)

/-- `symptoms?.mood`. -/
def moodVal (data : CycleData) : Option Mood :=
  data.symptoms.bind (fun s => s.mood)

/-- The strict-equality test of line 495: cramps are severe or the mood is
irritable; strict equality against `undefined` is `false`, so this
subexpression is always a genuine boolean. -/
def severeCond (data : CycleData) : Bool :=
  decide (crampsVal data = some .severe) || decide (moodVal data = some .irritable)

/-- `const pcosRiskFlag = longCycles >= 3 || (isIrregular && symptoms?.acne
&& (severe cramps or irritable mood))` (lines 494-495), with JavaScript
`&&`/`||` semantics on possibly-undefined operands. -/
noncomputable def pcosRiskFlag (data : CycleData) : Option Bool :=
  jsOr (some (decide (3 ≤ longCycles data)))
    (jsAnd (jsAnd (some (isIrregular data)) (acneVal data))
      (some (severeCond data)))

/-- Truthiness of `stressLevel && stressLevel >= 4` (line 499). -/
def stressCond (data : CycleData) : Bool :=
  match data.stressLevel with
  | Option.none => false
  | some s => decide (s ≠ 0) && decide (4 ≤ s)

/-- Truthiness of `sleepHours && sleepHours < 6` (line 502). -/
def sleepCond (data : CycleData) : Bool :=
  match data.sleepHours with
  | Option.none => false
  | some h => decide (h ≠ 0) && decide (h < 6)

/-- `delayAdjustment` (lines 498-504): starts at 0, `+= 2` under the stress
condition, `+= 1` under the sleep condition. -/
def delayAdjustment (data : CycleData) : ℤ :=
  (if stressCond data then 2 else 0) + (if sleepCond data then 1 else 0)

end Cycle

/-- `predictNextCycle` of the source (lines 444-519).  The empty-history
branch (lines 447-461) returns the fixed default prediction; otherwise the
result is assembled from the weighted average, variance, flags and delay
adjustment (lines 506-518). -/
noncomputable def predictNextCycle (data : CycleData) : CyclePrediction :=
  if data.cycleHistory.length = 0 then
    { predictedStartDate := data.lastPeriodStart + 28
      confidenceLevel := .low
      averageCycleLength := 28
      cycleVariability := 0
      isIrregular := false
      pcosRiskFlag := some false
      delayAdjustment := 0 }
  else
    { predictedStartDate :=
        data.lastPeriodStart + jsRound (Cycle.weightedAverage data) +
          Cycle.delayAdjustment data
      confidenceLevel := Cycle.confidenceLevel data
      averageCycleLength := jsRound (Cycle.weightedAverage data)
      cycleVariability := (jsRoundR (Cycle.variability data * 10) : ℝ) / 10
      isIrregular := Cycle.isIrregular data
      pcosRiskFlag := Cycle.pcosRiskFlag data
      delayAdjustment := Cycle.delayAdjustment data }

-- ==========================================
-- API-BASED PREDICTION FUNCTIONS (ml-predictions.ts lines 567-789)
-- ==========================================

/-- `MLPredictionMeta` of the source. -/
structure MLPredictionMeta where
  usedAPI : Bool
  error : Option String
deriving DecidableEq

/-- Outcome of one `fetch` of the remote ML API: either the call threw
(network failure), or it produced a response with an `ok` flag and a parsed
JSON body.  The Supabase logging insert performed on the success path does
not influence the returned prediction and is not modelled. -/
inductive FetchOutcome (α : Type) where
  | failure (msg : String)
  | response (ok : Bool) (body : α)
deriving DecidableEq

/-- A fetch outcome on which the API call fails: the fetch threw, or the
response is not ok. -/
def FetchOutcome.failed {α : Type} : FetchOutcome α → Bool
  | .failure _ => true
  | .response ok _ => !ok

/-- The parsed JSON body the PCOS endpoint is expected to return
(lines 611-631): the `severity` field is a capitalised string mapped through
`severityMap`, and the recommendations carry a `doctor` field renamed to
`needsDoctor`. -/
structure PCOSApiBody where
  hasPCOS : Bool
  riskPercentage : ℤ
  severity : String
  breakdown : PCOSBreakdown
  recDiet : List String
  recExercise : List String
  recLifestyle : List String
  recDoctor : Bool
deriving DecidableEq

/-- `severityMap[...] ?? "none"` (lines 613-618, 623). -/
def severityMap (s : String) : Severity :=
  if s = ("Low" : String) then .low
  else if s = ("Medium" : String) then .medium
  else if s = ("High" : String) then .high
  else if s = ("None" : String) then .none
  else .none

/-- `predictPCOSFromAPI` (lines 575-661), with the fetch outcome made an
explicit argument.  On a non-ok response the source throws (line 608) into
the catch block; the catch block (lines 650-660) returns the local
`predictPCOS` result spread together with `_meta`. -/
def predictPCOSFromAPI (outcome : FetchOutcome PCOSApiBody)
    (data : PCOSInputData) : PCOSResult × MLPredictionMeta :=
  match outcome with
  | .response true body =>
    ({ hasPCOS := body.hasPCOS
       riskPercentage := body.riskPercentage
       severity := severityMap body.severity
       breakdown := body.breakdown
       recommendations :=
         { diet := body.recDiet
           exercise := body.recExercise
           lifestyle := body.recLifestyle
           needsDoctor := body.recDoctor } },
     { usedAPI := true, error := Option.none })
  | .response false _ =>
    (predictPCOS data,
     { usedAPI := false, error := some ("Backend validation failed") })
  | .failure msg =>
    (predictPCOS data, { usedAPI := false, error := some msg })

/-- `predictMenopauseFromAPI` (lines 669-731): the success path spreads the
parsed JSON body directly (line 720); the catch block (lines 722-730)
returns the local `predictMenopause` result. -/
def predictMenopauseFromAPI (outcome : FetchOutcome MenopauseResult)
    (data : MenopauseInputData) : MenopauseResult × MLPredictionMeta :=
  match outcome with
  | .response true body =>
    (body, { usedAPI := true, error := Option.none })
  | .response false _ =>
    (predictMenopause data,
     { usedAPI := false, error := some ("Backend validation failed") })
  | .failure msg =>
    (predictMenopause data, { usedAPI := false, error := some msg })

/-- `predictCycleFromAPI` (lines 737-789): the success path rebuilds a
`CyclePrediction` field by field from the parsed body (lines 756-764); the
catch block (lines 780-788) returns the local `predictNextCycle` result. -/
noncomputable def predictCycleFromAPI (outcome : FetchOutcome CyclePrediction)
    (data : CycleData) : CyclePrediction × MLPredictionMeta :=
  match outcome with
  | .response true body =>
    ({ predictedStartDate := body.predictedStartDate
       confidenceLevel := body.confidenceLevel
       averageCycleLength := body.averageCycleLength
       cycleVariability := body.cycleVariability
       isIrregular := body.isIrregular
       pcosRiskFlag := body.pcosRiskFlag
       delayAdjustment := body.delayAdjustment },
     { usedAPI := true, error := Option.none })
  | .response false _ =>
    (predictNextCycle data,
     { usedAPI := false, error := some ("Backend error") })
  | .failure msg =>
    (predictNextCycle data, { usedAPI := false, error := some msg })

-- ==========================================
-- Specification-side formulas (from the wording of the claims)
-- ==========================================

/-- Weighted mean of a list of cycle lengths with weights `1, 2, ..., k`
(`k` the length of the list, the most recent entry weighted highest), as
the claims state it. -/
def specWeightedMean (l : List ℚ) : ℚ :=
  (∑ i ∈ Finset.range l.length, l.getD i 0 * ((i : ℚ) + 1)) /
    ((l.length : ℚ) * ((l.length : ℚ) + 1) / 2)

/-- Arithmetic mean of a list of cycle lengths, as the claims state it. -/
def specMean (l : List ℚ) : ℚ :=
  (∑ i ∈ Finset.range l.length, l.getD i 0) / (l.length : ℚ)

/-- Population standard deviation of a list of cycle lengths, as the claims
state it. -/
noncomputable def specStdDev (l : List ℚ) : ℝ :=
  Real.sqrt
    ((∑ i ∈ Finset.range l.length, ((l.getD i 0 : ℝ) - (specMean l : ℝ)) ^ 2) /
      (l.length : ℝ))

-- ==========================================
-- Concrete inputs used by witnesses and counterexamples
-- ==========================================

/-- A maximal-score input showing the unclamped PCOS risk exceeds 100. -/
def pcosMaxInput : PCOSInputData :=
  { age := 30, weight := 70, bmi := 30, cycleRegular := false,
    cycleLength := 45, weightGain := true, hairGrowth := true,
    skinDarkening := true, hairLoss := true, pimples := true,
    fastFood := true, regularExercise := false, follicleLeft := 6,
    follicleRight := 6, endometrium := 8 }

/-- A typical PCOS input, used to instantiate universally quantified
theorems. -/
def witnessPCOSInput : PCOSInputData :=
  { age := 25, weight := 60, bmi := 22, cycleRegular := true,
    cycleLength := 28, weightGain := false, hairGrowth := false,
    skinDarkening := false, hairLoss := false, pimples := false,
    fastFood := false, regularExercise := true, follicleLeft := 4,
    follicleRight := 4, endometrium := 7 }

/-- A typical menopause input, used to instantiate universally quantified
theorems. -/
def witnessMenoInput : MenopauseInputData :=
  { age := 35, estrogenLevel := 60, fshLevel := 10,
    yearsSinceLastPeriod := 0, irregularPeriods := false,
    missedPeriods := false, hotFlashes := false, nightSweats := false,
    sleepProblems := false, vaginalDryness := false, jointPain := false }

/-- A cycle input with a three-entry history, used to instantiate
universally quantified theorems. -/
def witnessCycleInput : CycleData :=
  { cycleHistory := [28, 29, 30], lastPeriodStart := 19000,
    symptoms := Option.none, stressLevel := some 5, sleepHours := some 5 }

/-- A cycle input with an empty history. -/
def emptyCycleInput : CycleData :=
  { cycleHistory := [], lastPeriodStart := 100,
    symptoms := Option.none, stressLevel := Option.none,
    sleepHours := Option.none }

/-- Input for the C7 counterexample: the history is irregular (every cycle
is 20 days, below 21), has no cycle longer than 35 days, and no symptom
record is provided. -/
def undefinedFlagInput : CycleData :=
  { cycleHistory := [20, 20, 20], lastPeriodStart := 0,
    symptoms := Option.none, stressLevel := Option.none,
    sleepHours := Option.none }

-- ==========================================
-- Helper lemmas about list folds
-- ==========================================

lemma foldl_add_eq (l : List ℚ) (a : ℚ) : l.foldl (· + ·) a = a + l.sum := by
  induction l generalizing a with
  | nil => simp
  | cons c t ih => simp [List.foldl_cons, ih, List.sum_cons]; ring

lemma foldl_add_map (g : ℚ → ℚ) (l : List ℚ) (a : ℚ) :
    l.foldl (fun s c => s + g c) a = a + (l.map g).sum := by
  induction l generalizing a with
  | nil => simp
  | cons c t ih => simp [List.foldl_cons, ih, List.sum_cons]; ring

lemma sum_eq_range_getD (l : List ℚ) :
    l.sum = ∑ i ∈ Finset.range l.length, l.getD i 0 := by
  induction l with
  | nil => simp
  | cons c t ih =>
    simp [List.sum_cons, ih, List.length_cons, Finset.sum_range_succ',
      List.getD_cons_succ, List.getD_cons_zero]
    ring

lemma getD_map_of_lt (g : ℚ → ℚ) (l : List ℚ) (i : ℕ) (h : i < l.length) :
    (l.map g).getD i 0 = g (l.getD i 0) := by
  rw [List.getD_eq_getElem _ _ (by simpa using h), List.getD_eq_getElem _ _ h,
    List.getElem_map]

lemma enumFrom_foldl (f : ℕ → ℚ) (l : List ℚ) :
    ∀ (n : ℕ) (a : ℚ),
      (l.enumFrom n).foldl (fun s ic => s + ic.2 * f ic.1) a
        = a + ∑ i ∈ Finset.range l.length, l.getD i 0 * f (n + i) := by
  induction l with
  | nil => intro n a; simp
  | cons c t ih =>
    intro n a
    rw [List.enumFrom_cons, List.foldl_cons, ih (n + 1) (a + c * f n),
      List.length_cons, Finset.sum_range_succ']
    simp only [List.getD_cons_succ, List.getD_cons_zero, Nat.add_zero]
    rw [Finset.sum_congr rfl
      (fun i _ => by rw [show n + 1 + i = n + (i + 1) by omega])]
    ring

lemma enum_foldl (f : ℕ → ℚ) (l : List ℚ) :
    l.enum.foldl (fun s ic => s + ic.2 * f ic.1) 0
      = ∑ i ∈ Finset.range l.length, l.getD i 0 * f i := by
  have h := enumFrom_foldl f l 0 0
  simpa [List.enum] using h

lemma range_map_add_one_sum (k : ℕ) :
    ((List.range k).map (fun (i : ℕ) => (i : ℚ) + 1)).sum
      = (k : ℚ) * ((k : ℚ) + 1) / 2 := by
  induction k with
  | zero => simp
  | succ k ih =>
    rw [List.range_succ, List.map_append, List.sum_append, ih]
    push_cast
    simp
    ring

-- ==========================================
-- Bridge lemmas: the fold-based code equals the spec formulas
-- ==========================================

lemma recentCycles_length (d : CycleData) :
    (Cycle.recentCycles d).length = min 6 d.cycleHistory.length := by
  simp only [Cycle.recentCycles, List.length_drop]
  omega

lemma weights_getD (d : CycleData) (i : ℕ)
    (h : i < (Cycle.recentCycles d).length) :
    (Cycle.weights d).getD i 0 = (i : ℚ) + 1 := by
  unfold Cycle.weights
  rw [List.getD_eq_getElem _ _ (by simpa using h)]
  simp

lemma totalWeight_eq (d : CycleData) :
    Cycle.totalWeight d
      = ((Cycle.recentCycles d).length : ℚ) *
          (((Cycle.recentCycles d).length : ℚ) + 1) / 2 := by
  unfold Cycle.totalWeight Cycle.weights
  rw [foldl_add_eq, range_map_add_one_sum]
  ring

lemma weightedAverage_eq (d : CycleData) :
    Cycle.weightedAverage d = specWeightedMean (Cycle.recentCycles d) := by
  unfold Cycle.weightedAverage specWeightedMean
  rw [enum_foldl (fun i => (Cycle.weights d).getD i 0) (Cycle.recentCycles d),
    totalWeight_eq]
  congr 1
  exact Finset.sum_congr rfl
    (fun i hi => by rw [weights_getD d i (Finset.mem_range.mp hi)])

lemma mean_eq (d : CycleData) :
    Cycle.mean d = specMean (Cycle.recentCycles d) := by
  unfold Cycle.mean specMean
  rw [foldl_add_eq, sum_eq_range_getD]
  simp

lemma variance_eq (d : CycleData) :
    Cycle.variance d
      = (∑ i ∈ Finset.range (Cycle.recentCycles d).length,
          ((Cycle.recentCycles d).getD i 0 - specMean (Cycle.recentCycles d)) ^ 2) /
        ((Cycle.recentCycles d).length : ℚ) := by
  unfold Cycle.variance
  rw [foldl_add_map, sum_eq_range_getD]
  simp only [List.length_map]
  rw [Finset.sum_congr rfl
    (fun i hi => getD_map_of_lt _ _ i (Finset.mem_range.mp hi))]
  rw [mean_eq]
  simp

lemma variability_eq (d : CycleData) :
    Cycle.variability d = specStdDev (Cycle.recentCycles d) := by
  unfold Cycle.variability specStdDev
  rw [variance_eq]
  congr 1
  push_cast
  ring

-- ==========================================
-- Helper lemmas for the PCOS scores
-- ==========================================

lemma totalScore_nonneg (d : PCOSInputData) : 0 ≤ PCOS.totalScore d := by
  have h1 : 0 ≤ PCOS.cycleScore d := by
    unfold PCOS.cycleScore; split <;> norm_num
  have h2 : 0 ≤ PCOS.ultrasoundScore d := by
    unfold PCOS.ultrasoundScore; split <;> norm_num
  have h3 : 0 ≤ PCOS.hormonalScore d := by
    unfold PCOS.hormonalScore; split_ifs <;> norm_num
  have h4 : 0 ≤ PCOS.metabolicScore d := by
    unfold PCOS.metabolicScore; split <;> norm_num
  have h5 : 0 ≤ PCOS.lifestyleScore d := by
    unfold PCOS.lifestyleScore; split_ifs <;> norm_num
  unfold PCOS.totalScore
  linarith

lemma riskPercentageRaw_nonneg (d : PCOSInputData) :
    0 ≤ PCOS.riskPercentageRaw d := by
  unfold PCOS.riskPercentageRaw jsRound
  have h : (0 : ℚ) ≤ PCOS.totalScore d / 9 * 100 := by
    have := totalScore_nonneg d
    positivity
  exact Int.le_floor.mpr (by push_cast; linarith)

-- ==========================================
-- Claim theorems
-- ==========================================

/-- Claim C1: `predictPCOS` maps its score to severity buckets correctly:
severity is `none` exactly when `hasPCOS` is false, and when `hasPCOS` is
true, severity is `low` exactly when `riskPercentage` is below 50, `medium`
exactly when it is at least 50 and below 70, and `high` exactly when it is at
least 70. -/
theorem claim_C1_pcos_severity_buckets (d : PCOSInputData) :
    ((predictPCOS d).severity = Severity.none ↔ (predictPCOS d).hasPCOS = false) ∧
    ((predictPCOS d).severity = Severity.low ↔
      (predictPCOS d).hasPCOS = true ∧ (predictPCOS d).riskPercentage < 50) ∧
    ((predictPCOS d).severity = Severity.medium ↔
      (predictPCOS d).hasPCOS = true ∧ 50 ≤ (predictPCOS d).riskPercentage ∧
        (predictPCOS d).riskPercentage < 70) ∧
    ((predictPCOS d).severity = Severity.high ↔
      (predictPCOS d).hasPCOS = true ∧ 70 ≤ (predictPCOS d).riskPercentage) := by
  have hs : (predictPCOS d).severity = PCOS.severity d := rfl
  have hh : (predictPCOS d).hasPCOS = PCOS.hasPCOS d := rfl
  have hr : (predictPCOS d).riskPercentage = PCOS.riskPercentage d := rfl
  rw [hs, hh, hr]
  unfold PCOS.severity
  cases h : PCOS.hasPCOS d with
  | false =>
    rw [if_pos rfl]
    exact ⟨by simp, by simp, by simp, by simp⟩
  | true =>
    rw [if_neg (by simp)]
    split_ifs with h1 h2 <;> refine ⟨by simp, ?_, ?_, ?_⟩ <;> (simp; omega)

/-- Claim C2: `predictPCOS` computes the weighted total score
`2·cycle + 2·ultrasound + hormonal-count + bmi-indicator + 0.5·lifestyle`,
reports `hasPCOS` exactly when the total is at least 4, and returns
`riskPercentage = round(total/9 · 100)` raised to at least 30 when `hasPCOS`
is true and capped at 100. -/
theorem claim_C2_pcos_total_score (d : PCOSInputData) :
    PCOS.totalScore d =
      2 * (if d.cycleRegular = false then 1 else 0) +
      2 * (if 10 ≤ d.follicleLeft + d.follicleRight then 1 else 0) +
      ((if d.hairGrowth then 1 else 0) + (if d.skinDarkening then 1 else 0) +
        (if d.hairLoss then 1 else 0) + (if d.pimples then 1 else 0)) +
      (if 25 ≤ d.bmi then 1 else 0) +
      (1 / 2) * ((if d.weightGain then 1 else 0) + (if d.fastFood then 1 else 0) +
        (if d.regularExercise = false then 1 else 0)) ∧
    ((predictPCOS d).hasPCOS = true ↔ 4 ≤ PCOS.totalScore d) ∧
    (predictPCOS d).riskPercentage =
      min 100 (if (predictPCOS d).hasPCOS then
        max 30 (jsRound (PCOS.totalScore d / 9 * 100))
      else jsRound (PCOS.totalScore d / 9 * 100)) := by
  refine ⟨?_, ?_, ?_⟩
  · have e1 : 2 * PCOS.cycleScore d
        = 2 * (if d.cycleRegular = false then (1 : ℚ) else 0) := by
      unfold PCOS.cycleScore; cases d.cycleRegular <;> simp
    have e2 : PCOS.ultrasoundScore d
        = (if 10 ≤ d.follicleLeft + d.follicleRight then (1 : ℚ) else 0) := by
      unfold PCOS.ultrasoundScore PCOS.totalFollicles; rfl
    have e3 : PCOS.lifestyleScore d
        = (1 / 2) * ((if d.weightGain then (1 : ℚ) else 0) +
            (if d.fastFood then 1 else 0) +
            (if d.regularExercise = false then 1 else 0)) := by
      unfold PCOS.lifestyleScore
      cases d.weightGain <;> cases d.fastFood <;>
        cases d.regularExercise <;> norm_num
    unfold PCOS.totalScore
    rw [e1, e2, e3]
    unfold PCOS.hormonalScore PCOS.metabolicScore
    ring
  · have hh : (predictPCOS d).hasPCOS = PCOS.hasPCOS d := rfl
    rw [hh]
    simp [PCOS.hasPCOS]
  · have hh : (predictPCOS d).hasPCOS = PCOS.hasPCOS d := rfl
    have hr : (predictPCOS d).riskPercentage = PCOS.riskPercentage d := rfl
    rw [hr, hh]
    unfold PCOS.riskPercentage
    cases h : PCOS.hasPCOS d with
    | true =>
      rw [if_pos rfl, if_pos rfl]
      rfl
    | false =>
      rw [if_neg (by simp), if_neg (by simp),
        max_eq_right (riskPercentageRaw_nonneg d)]
      rfl

/-- Claim C8: the PCOS `riskPercentage` is an integer (the model makes it an
`ℤ` by construction) between 0 and 100, at least 30 whenever `hasPCOS`
holds; the menopause `riskPercentage` is between 0 and 100; and the
unclamped value `round(total/9 · 100)` can exceed 100. -/
theorem claim_C8_risk_percentage_bounds :
    (∀ d : PCOSInputData,
      0 ≤ (predictPCOS d).riskPercentage ∧
      (predictPCOS d).riskPercentage ≤ 100 ∧
      (if (predictPCOS d).hasPCOS then 30 else 0) ≤ (predictPCOS d).riskPercentage) ∧
    (∀ m : MenopauseInputData,
      0 ≤ (predictMenopause m).riskPercentage ∧
      (predictMenopause m).riskPercentage ≤ 100) ∧
    (∃ d : PCOSInputData, 100 < PCOS.riskPercentageRaw d) := by
  have hmax : 100 < PCOS.riskPercentageRaw pcosMaxInput := by
    have ht : PCOS.totalScore pcosMaxInput = 21 / 2 := by
      norm_num [PCOS.totalScore, PCOS.cycleScore, PCOS.ultrasoundScore,
        PCOS.totalFollicles, PCOS.hormonalScore, PCOS.metabolicScore,
        PCOS.lifestyleScore, pcosMaxInput]
    unfold PCOS.riskPercentageRaw jsRound
    rw [ht]
    have h101 : (101 : ℤ) ≤ ⌊(21 / 2 / 9 * 100 + 1 / 2 : ℚ)⌋ :=
      Int.le_floor.mpr (by norm_num)
    omega
  refine ⟨?_, ?_, ⟨pcosMaxInput, hmax⟩⟩
  · intro d
    simp only [predictPCOS]
    unfold PCOS.riskPercentage
    have ha : (0 : ℤ) ≤ (if PCOS.hasPCOS d then 30 else 0) := by
      split <;> norm_num
    have hb : (if PCOS.hasPCOS d then (30 : ℤ) else 0) ≤ 100 := by
      split <;> norm_num
    refine ⟨le_min (by norm_num) (le_trans ha (le_max_left _ _)), min_le_left _ _,
      le_min hb (le_max_left _ _)⟩
  · intro m
    simp only [predictMenopause]
    unfold Menopause.riskPercentage
    exact ⟨le_min (by norm_num) (le_max_left _ _), min_le_left _ _⟩

/-- Claim C4: `predictMenopause` applies the stage rule: `Post-Menopause`
exactly when `yearsSinceLastPeriod >= 1`; otherwise `Peri-Menopause` exactly
when `age >= 40` and at least one of `irregularPeriods`, `missedPeriods`,
`hotFlashes` holds; otherwise `Pre-Menopause`; and `hasMenopauseSymptoms`
holds exactly when the stage is not `Pre-Menopause`. -/
theorem claim_C4_menopause_stage (d : MenopauseInputData) :
    ((predictMenopause d).stage = Stage.post ↔ 1 ≤ d.yearsSinceLastPeriod) ∧
    ((predictMenopause d).stage = Stage.peri ↔
      d.yearsSinceLastPeriod < 1 ∧ 40 ≤ d.age ∧
        (d.irregularPeriods = true ∨ d.missedPeriods = true ∨
          d.hotFlashes = true)) ∧
    ((predictMenopause d).stage = Stage.pre ↔
      d.yearsSinceLastPeriod < 1 ∧
        ¬(40 ≤ d.age ∧ (d.irregularPeriods = true ∨ d.missedPeriods = true ∨
          d.hotFlashes = true))) ∧
    ((predictMenopause d).hasMenopauseSymptoms = true ↔
      (predictMenopause d).stage ≠ Stage.pre) := by
  have hs : (predictMenopause d).stage = Menopause.stage d := rfl
  have hm : (predictMenopause d).hasMenopauseSymptoms
      = decide (Menopause.stage d ≠ Stage.pre) := rfl
  rw [hs, hm]
  unfold Menopause.stage
  split_ifs with h1 h2
  · refine ⟨by simp [h1], ?_, ?_, by simp⟩
    · constructor
      · intro hx; cases hx
      · rintro ⟨hy, -⟩; linarith
    · constructor
      · intro hx; cases hx
      · rintro ⟨hy, -⟩; linarith
  · have hy : d.yearsSinceLastPeriod < 1 := lt_of_not_le h1
    refine ⟨?_, by simp [hy, h2.1, h2.2], ?_, by simp⟩
    · constructor
      · intro hx; cases hx
      · intro h1x; exact absurd h1x h1
    · constructor
      · intro hx; cases hx
      · rintro ⟨-, hnot⟩; exact absurd h2 hnot
  · have hy : d.yearsSinceLastPeriod < 1 := lt_of_not_le h1
    refine ⟨?_, ?_, by simp [hy, h2], by simp⟩
    · constructor
      · intro hx; cases hx
      · intro h1x; exact absurd h1x h1
    · constructor
      · intro hx; cases hx
      · rintro ⟨-, hc1, hc2⟩; exact absurd ⟨hc1, hc2⟩ h2

/-- Claim C6: the local scoring functions are deterministic: two runs on
equal inputs return equal outputs, every field included. -/
theorem claim_C6_determinism (d1 d2 : PCOSInputData)
    (m1 m2 : MenopauseInputData) (c1 c2 : CycleData)
    (hd : d1 = d2) (hm : m1 = m2) (hc : c1 = c2) :
    predictPCOS d1 = predictPCOS d2 ∧
    predictMenopause m1 = predictMenopause m2 ∧
    predictNextCycle c1 = predictNextCycle c2 := by
  subst hd; subst hm; subst hc
  exact ⟨rfl, rfl, rfl⟩

/-- Witness for C6 at concrete inputs. -/
theorem claim_C6_determinism_witness :
    witnessPCOSInput = witnessPCOSInput ∧
    witnessMenoInput = witnessMenoInput ∧
    witnessCycleInput = witnessCycleInput ∧
    (predictPCOS witnessPCOSInput = predictPCOS witnessPCOSInput ∧
      predictMenopause witnessMenoInput = predictMenopause witnessMenoInput ∧
      predictNextCycle witnessCycleInput = predictNextCycle witnessCycleInput) :=
  ⟨rfl, rfl, rfl,
    claim_C6_determinism witnessPCOSInput witnessPCOSInput witnessMenoInput
      witnessMenoInput witnessCycleInput witnessCycleInput rfl rfl rfl⟩

/-- Claim C5: when the remote ML API call fails (the fetch throws or the
response is not ok), each API wrapper returns exactly the result of its
local fallback function on the same input, with `_meta.usedAPI = false`. -/
theorem claim_C5_api_fallback (pd : PCOSInputData) (md : MenopauseInputData)
    (cd : CycleData) (o1 : FetchOutcome PCOSApiBody)
    (o2 : FetchOutcome MenopauseResult) (o3 : FetchOutcome CyclePrediction)
    (h1 : o1.failed = true) (h2 : o2.failed = true) (h3 : o3.failed = true) :
    (predictPCOSFromAPI o1 pd).1 = predictPCOS pd ∧
    (predictPCOSFromAPI o1 pd).2.usedAPI = false ∧
    (predictMenopauseFromAPI o2 md).1 = predictMenopause md ∧
    (predictMenopauseFromAPI o2 md).2.usedAPI = false ∧
    (predictCycleFromAPI o3 cd).1 = predictNextCycle cd ∧
    (predictCycleFromAPI o3 cd).2.usedAPI = false := by
  have p1 : (predictPCOSFromAPI o1 pd).1 = predictPCOS pd ∧
      (predictPCOSFromAPI o1 pd).2.usedAPI = false := by
    cases o1 with
    | failure msg => exact ⟨rfl, rfl⟩
    | response ok body =>
      cases ok with
      | true => simp [FetchOutcome.failed] at h1
      | false => exact ⟨rfl, rfl⟩
  have p2 : (predictMenopauseFromAPI o2 md).1 = predictMenopause md ∧
      (predictMenopauseFromAPI o2 md).2.usedAPI = false := by
    cases o2 with
    | failure msg => exact ⟨rfl, rfl⟩
    | response ok body =>
      cases ok with
      | true => simp [FetchOutcome.failed] at h2
      | false => exact ⟨rfl, rfl⟩
  have p3 : (predictCycleFromAPI o3 cd).1 = predictNextCycle cd ∧
      (predictCycleFromAPI o3 cd).2.usedAPI = false := by
    cases o3 with
    | failure msg => exact ⟨rfl, rfl⟩
    | response ok body =>
      cases ok with
      | true => simp [FetchOutcome.failed] at h3
      | false => exact ⟨rfl, rfl⟩
  exact ⟨p1.1, p1.2, p2.1, p2.2, p3.1, p3.2⟩

/-- Witness for C5: concrete failing outcomes (one thrown fetch, one non-ok
response). -/
theorem claim_C5_api_fallback_witness :
    (FetchOutcome.failure (α := PCOSApiBody) ("network down")).failed = true ∧
    (FetchOutcome.failure (α := MenopauseResult) ("network down")).failed = true ∧
    (FetchOutcome.failure (α := CyclePrediction) ("network down")).failed = true ∧
    ((predictPCOSFromAPI (.failure ("network down")) witnessPCOSInput).1
        = predictPCOS witnessPCOSInput ∧
      (predictPCOSFromAPI (.failure ("network down")) witnessPCOSInput).2.usedAPI
        = false ∧
      (predictMenopauseFromAPI (.failure ("network down")) witnessMenoInput).1
        = predictMenopause witnessMenoInput ∧
      (predictMenopauseFromAPI (.failure ("network down")) witnessMenoInput).2.usedAPI
        = false ∧
      (predictCycleFromAPI (.failure ("network down")) witnessCycleInput).1
        = predictNextCycle witnessCycleInput ∧
      (predictCycleFromAPI (.failure ("network down")) witnessCycleInput).2.usedAPI
        = false) :=
  ⟨rfl, rfl, rfl,
    claim_C5_api_fallback witnessPCOSInput witnessMenoInput witnessCycleInput
      (.failure ("network down")) (.failure ("network down"))
      (.failure ("network down")) rfl rfl rfl⟩

/-- Claim C9: on an empty `cycleHistory`, `predictNextCycle` returns the
fixed default prediction: start date 28 days after `lastPeriodStart`, low
confidence, average length 28, variability 0, not irregular, no PCOS risk
flag, no delay adjustment. -/
theorem claim_C9_empty_history_default (d : CycleData)
    (h : d.cycleHistory = []) :
    (predictNextCycle d).predictedStartDate = d.lastPeriodStart + 28 ∧
    (predictNextCycle d).confidenceLevel = ConfidenceLevel.low ∧
    (predictNextCycle d).averageCycleLength = 28 ∧
    (predictNextCycle d).cycleVariability = 0 ∧
    (predictNextCycle d).isIrregular = false ∧
    (predictNextCycle d).pcosRiskFlag = some false ∧
    (predictNextCycle d).delayAdjustment = 0 := by
  have hlen : d.cycleHistory.length = 0 := by rw [h]; rfl
  unfold predictNextCycle
  rw [if_pos hlen]
  exact ⟨rfl, rfl, rfl, rfl, rfl, rfl, rfl⟩

/-- Witness for C9 at a concrete empty-history input. -/
theorem claim_C9_empty_history_default_witness :
    emptyCycleInput.cycleHistory = [] ∧
    ((predictNextCycle emptyCycleInput).predictedStartDate
        = emptyCycleInput.lastPeriodStart + 28 ∧
      (predictNextCycle emptyCycleInput).confidenceLevel = ConfidenceLevel.low ∧
      (predictNextCycle emptyCycleInput).averageCycleLength = 28 ∧
      (predictNextCycle emptyCycleInput).cycleVariability = 0 ∧
      (predictNextCycle emptyCycleInput).isIrregular = false ∧
      (predictNextCycle emptyCycleInput).pcosRiskFlag = some false ∧
      (predictNextCycle emptyCycleInput).delayAdjustment = 0) :=
  ⟨rfl, claim_C9_empty_history_default emptyCycleInput rfl⟩

open scoped Classical in
/-- Claim C10: for nonempty history, `delayAdjustment` is 2 when
`stressLevel` is provided and at least 4, plus 1 when `sleepHours` is
provided, nonzero and below 6; it is always one of 0, 1, 2, 3; and
`predictedStartDate` is `lastPeriodStart` plus `averageCycleLength` plus
`delayAdjustment` days. -/
theorem claim_C10_delay_adjustment (d : CycleData) (h : d.cycleHistory ≠ []) :
    ((predictNextCycle d).delayAdjustment =
      (if ∃ s, d.stressLevel = some s ∧ 4 ≤ s then 2 else 0) +
      (if ∃ sl, d.sleepHours = some sl ∧ sl ≠ 0 ∧ sl < 6 then 1 else 0)) ∧
    ((predictNextCycle d).delayAdjustment = 0 ∨
      (predictNextCycle d).delayAdjustment = 1 ∨
      (predictNextCycle d).delayAdjustment = 2 ∨
      (predictNextCycle d).delayAdjustment = 3) ∧
    (predictNextCycle d).predictedStartDate =
      d.lastPeriodStart + (predictNextCycle d).averageCycleLength +
        (predictNextCycle d).delayAdjustment := by
  have hlen : ¬ d.cycleHistory.length = 0 := by simpa using h
  have hda : (predictNextCycle d).delayAdjustment = Cycle.delayAdjustment d := by
    unfold predictNextCycle; rw [if_neg hlen]
  have hav : (predictNextCycle d).averageCycleLength
      = jsRound (Cycle.weightedAverage d) := by
    unfold predictNextCycle; rw [if_neg hlen]
  have hpd : (predictNextCycle d).predictedStartDate
      = d.lastPeriodStart + jsRound (Cycle.weightedAverage d) +
        Cycle.delayAdjustment d := by
    unfold predictNextCycle; rw [if_neg hlen]
  refine ⟨?_, ?_, ?_⟩
  · rw [hda]
    unfold Cycle.delayAdjustment
    have hstress : (Cycle.stressCond d = true) ↔
        (∃ s, d.stressLevel = some s ∧ 4 ≤ s) := by
      unfold Cycle.stressCond
      cases hsl : d.stressLevel with
      | none => simp
      | some s =>
        simp only [Bool.and_eq_true, decide_eq_true_eq, Option.some.injEq]
        constructor
        · rintro ⟨-, h4⟩; exact ⟨s, rfl, h4⟩
        · rintro ⟨s2, hs2, h4⟩
          cases hs2
          refine ⟨fun h0 => ?_, h4⟩
          rw [h0] at h4
          norm_num at h4
    have hsleep : (Cycle.sleepCond d = true) ↔
        (∃ sl, d.sleepHours = some sl ∧ sl ≠ 0 ∧ sl < 6) := by
      unfold Cycle.sleepCond
      cases hsl : d.sleepHours with
      | none => simp
      | some s =>
        simp only [Bool.and_eq_true, decide_eq_true_eq, Option.some.injEq]
        constructor
        · rintro ⟨h0, h6⟩; exact ⟨s, rfl, h0, h6⟩
        · rintro ⟨s2, hs2, h0, h6⟩; cases hs2; exact ⟨h0, h6⟩
    congr 1
    · exact if_congr hstress rfl rfl
    · exact if_congr hsleep rfl rfl
  · rw [hda]
    unfold Cycle.delayAdjustment
    split_ifs <;> omega
  · rw [hpd, hav, hda]

open scoped Classical in
/-- Witness for C10 at a concrete input (stress 5, sleep 5 hours: both
adjustments fire). -/
theorem claim_C10_delay_adjustment_witness :
    witnessCycleInput.cycleHistory ≠ [] ∧
    (((predictNextCycle witnessCycleInput).delayAdjustment =
        (if ∃ s, witnessCycleInput.stressLevel = some s ∧ 4 ≤ s then 2 else 0) +
        (if ∃ sl, witnessCycleInput.sleepHours = some sl ∧ sl ≠ 0 ∧ sl < 6
          then 1 else 0)) ∧
      ((predictNextCycle witnessCycleInput).delayAdjustment = 0 ∨
        (predictNextCycle witnessCycleInput).delayAdjustment = 1 ∨
        (predictNextCycle witnessCycleInput).delayAdjustment = 2 ∨
        (predictNextCycle witnessCycleInput).delayAdjustment = 3) ∧
      (predictNextCycle witnessCycleInput).predictedStartDate =
        witnessCycleInput.lastPeriodStart +
          (predictNextCycle witnessCycleInput).averageCycleLength +
          (predictNextCycle witnessCycleInput).delayAdjustment) :=
  ⟨by simp [witnessCycleInput],
    claim_C10_delay_adjustment witnessCycleInput (by simp [witnessCycleInput])⟩

/-- Claim C3: for nonempty history, `averageCycleLength` is the rounded
weighted mean of the last `min(6, n)` entries with weights `1..k` (most
recent highest), and `cycleVariability` is their population standard
deviation rounded to one decimal; both are functions of the last six
entries only (the right-hand sides depend only on `recentCycles`). -/
theorem claim_C3_weighted_average (d : CycleData) (h : d.cycleHistory ≠ []) :
    (d.cycleHistory.take (d.cycleHistory.length - 6) ++ Cycle.recentCycles d
      = d.cycleHistory) ∧
    ((Cycle.recentCycles d).length = min 6 d.cycleHistory.length) ∧
    ((predictNextCycle d).averageCycleLength
      = jsRound (specWeightedMean (Cycle.recentCycles d))) ∧
    ((predictNextCycle d).cycleVariability
      = ((jsRoundR (specStdDev (Cycle.recentCycles d) * 10) : ℤ) : ℝ) / 10) := by
  have hlen : ¬ d.cycleHistory.length = 0 := by simpa using h
  have hav : (predictNextCycle d).averageCycleLength
      = jsRound (Cycle.weightedAverage d) := by
    unfold predictNextCycle; rw [if_neg hlen]
  have hcv : (predictNextCycle d).cycleVariability
      = ((jsRoundR (Cycle.variability d * 10) : ℤ) : ℝ) / 10 := by
    unfold predictNextCycle; rw [if_neg hlen]
  refine ⟨List.take_append_drop _ _, recentCycles_length d, ?_, ?_⟩
  · rw [hav, weightedAverage_eq]
  · rw [hcv, variability_eq]

/-- Witness for C3 at a concrete three-entry history. -/
theorem claim_C3_weighted_average_witness :
    witnessCycleInput.cycleHistory ≠ [] ∧
    ((witnessCycleInput.cycleHistory.take
        (witnessCycleInput.cycleHistory.length - 6) ++
        Cycle.recentCycles witnessCycleInput
      = witnessCycleInput.cycleHistory) ∧
    ((Cycle.recentCycles witnessCycleInput).length
      = min 6 witnessCycleInput.cycleHistory.length) ∧
    ((predictNextCycle witnessCycleInput).averageCycleLength
      = jsRound (specWeightedMean (Cycle.recentCycles witnessCycleInput))) ∧
    ((predictNextCycle witnessCycleInput).cycleVariability
      = ((jsRoundR (specStdDev (Cycle.recentCycles witnessCycleInput) * 10) : ℤ) : ℝ)
          / 10)) :=
  ⟨by simp [witnessCycleInput],
    claim_C3_weighted_average witnessCycleInput (by simp [witnessCycleInput])⟩

/-- Exhaustive case analysis of the `pcosRiskFlag` expression: it is `true`
when at least three recent cycles are long; otherwise `false` when the cycle
is regular; otherwise it follows the (possibly undefined) acne symptom. -/
lemma pcosRiskFlag_eq_cases (d : CycleData) :
    Cycle.pcosRiskFlag d =
      if 3 ≤ Cycle.longCycles d then some true
      else if Cycle.isIrregular d = false then some false
      else
        match Cycle.acneVal d with
        | Option.none => Option.none
        | some false => some false
        | some true => some (Cycle.severeCond d) := by
  unfold Cycle.pcosRiskFlag
  by_cases h3 : 3 ≤ Cycle.longCycles d
  · rw [decide_eq_true h3, if_pos h3]
    rfl
  · rw [decide_eq_false h3, if_neg h3]
    cases hid : Cycle.isIrregular d with
    | false => rfl
    | true =>
      cases hac : Cycle.acneVal d with
      | none => rfl
      | some b =>
        cases b with
        | false => rfl
        | true => rfl

/-- Claim C7 as stated is false: on `undefinedFlagInput` no recent cycle
exceeds 35 days and no acne symptom is reported, so the claimed condition
for a true flag fails and the claim requires `pcosRiskFlag` to be `false`;
the code instead produces `undefined` (`Option.none` in this model),
because `isIrregular && symptoms?.acne` evaluates to `undefined`. -/
theorem claim_C7_counterexample :
    (predictNextCycle undefinedFlagInput).pcosRiskFlag = Option.none ∧
    Cycle.longCycles undefinedFlagInput = 0 ∧
    Cycle.acneVal undefinedFlagInput = Option.none ∧
    (predictNextCycle undefinedFlagInput).isIrregular = true := by
  have hlen : ¬ undefinedFlagInput.cycleHistory.length = 0 := by
    simp [undefinedFlagInput]
  have hproj : (predictNextCycle undefinedFlagInput).pcosRiskFlag
      = Cycle.pcosRiskFlag undefinedFlagInput := by
    unfold predictNextCycle; rw [if_neg hlen]
  have hirproj : (predictNextCycle undefinedFlagInput).isIrregular
      = Cycle.isIrregular undefinedFlagInput := by
    unfold predictNextCycle; rw [if_neg hlen]
  have hir : Cycle.isIrregular undefinedFlagInput = true := by
    unfold Cycle.isIrregular
    have hany : (Cycle.recentCycles undefinedFlagInput).any
        (fun c => decide (c < 21) || decide (35 < c)) = true := by decide
    rw [hany, Bool.or_true]
  have hlc : Cycle.longCycles undefinedFlagInput = 0 := by decide
  have hac : Cycle.acneVal undefinedFlagInput = Option.none := rfl
  refine ⟨?_, hlc, hac, by rw [hirproj, hir]⟩
  rw [hproj, pcosRiskFlag_eq_cases, if_neg (by rw [hlc]; norm_num),
    if_neg (by rw [hir]; simp), hac]

/-- Claim C7 (amended): `isIrregular` holds exactly when the standard
deviation of the last six cycles exceeds 7 or one of them is shorter than 21
or longer than 35 days; `pcosRiskFlag` is `true` exactly when at least three
of the last six cycles exceed 35 days, or the cycle is irregular and the
reported symptoms include acne together with severe cramps or an irritable
mood; otherwise it is `false` or undefined, undefined exactly when fewer
than three cycles are long, the cycle is irregular and no acne symptom was
provided. -/
theorem claim_C7_amended (d : CycleData) (h : d.cycleHistory ≠ []) :
    ((predictNextCycle d).isIrregular = true ↔
      7 < specStdDev (Cycle.recentCycles d) ∨
        ∃ c ∈ Cycle.recentCycles d, c < 21 ∨ 35 < c) ∧
    ((predictNextCycle d).pcosRiskFlag = some true ↔
      3 ≤ ((Cycle.recentCycles d).filter (fun c => decide (35 < c))).length ∨
        ((predictNextCycle d).isIrregular = true ∧
          Cycle.acneVal d = some true ∧
          (Cycle.crampsVal d = some Cramps.severe ∨
            Cycle.moodVal d = some Mood.irritable))) ∧
    ((predictNextCycle d).pcosRiskFlag = Option.none ↔
      ((Cycle.recentCycles d).filter (fun c => decide (35 < c))).length < 3 ∧
        (predictNextCycle d).isIrregular = true ∧
        Cycle.acneVal d = Option.none) ∧
    ((predictNextCycle d).pcosRiskFlag = some true ∨
      (predictNextCycle d).pcosRiskFlag = some false ∨
      (predictNextCycle d).pcosRiskFlag = Option.none) := by
  have hlen : ¬ d.cycleHistory.length = 0 := by simpa using h
  have hproj : (predictNextCycle d).pcosRiskFlag = Cycle.pcosRiskFlag d := by
    unfold predictNextCycle; rw [if_neg hlen]
  have hirproj : (predictNextCycle d).isIrregular = Cycle.isIrregular d := by
    unfold predictNextCycle; rw [if_neg hlen]
  have hlcdef : ((Cycle.recentCycles d).filter (fun c => decide (35 < c))).length
      = Cycle.longCycles d := rfl
  have hsev : (Cycle.severeCond d = true) ↔
      (Cycle.crampsVal d = some Cramps.severe ∨
        Cycle.moodVal d = some Mood.irritable) := by
    unfold Cycle.severeCond
    simp only [Bool.or_eq_true, decide_eq_true_eq]
  refine ⟨?_, ?_, ?_, ?_⟩
  · rw [hirproj]
    unfold Cycle.isIrregular
    rw [variability_eq]
    simp only [Bool.or_eq_true, decide_eq_true_eq, List.any_eq_true]
  · rw [hproj, hirproj, hlcdef, pcosRiskFlag_eq_cases]
    by_cases h3 : 3 ≤ Cycle.longCycles d
    · rw [if_pos h3]
      simp [h3]
    · rw [if_neg h3]
      cases hid : Cycle.isIrregular d with
      | false =>
        rw [if_pos rfl]
        simp [h3]
      | true =>
        rw [if_neg (by simp)]
        cases hac : Cycle.acneVal d with
        | none => simp [h3]
        | some b =>
          cases b with
          | false => simp [h3]
          | true => simp [h3, hsev]
  · rw [hproj, hirproj, hlcdef, pcosRiskFlag_eq_cases]
    by_cases h3 : 3 ≤ Cycle.longCycles d
    · rw [if_pos h3]
      constructor
      · intro hx; cases hx
      · rintro ⟨hlt, -, -⟩; omega
    · rw [if_neg h3]
      cases hid : Cycle.isIrregular d with
      | false =>
        rw [if_pos rfl]
        constructor
        · intro hx; cases hx
        · rintro ⟨-, hfalse, -⟩; cases hfalse
      | true =>
        rw [if_neg (by simp)]
        cases hac : Cycle.acneVal d with
        | none =>
          simp only [true_and, and_true]
          constructor
          · intro hx; omega
          · intro hx; trivial
        | some b =>
          cases b with
          | false =>
            constructor
            · intro hx; cases hx
            · rintro ⟨-, -, hx⟩; cases hx
          | true =>
            constructor
            · intro hx; cases hx
            · rintro ⟨-, -, hx⟩; cases hx
  · rw [hproj, pcosRiskFlag_eq_cases]
    by_cases h3 : 3 ≤ Cycle.longCycles d
    · rw [if_pos h3]; left; rfl
    · rw [if_neg h3]
      cases hid : Cycle.isIrregular d with
      | false => rw [if_pos rfl]; right; left; rfl
      | true =>
        rw [if_neg (by simp)]
        cases hac : Cycle.acneVal d with
        | none => right; right; rfl
        | some b =>
          cases b with
          | false => right; left; rfl
          | true =>
            cases hsc : Cycle.severeCond d with
            | false => right; left; rfl
            | true => left; rfl

/-- Witness for the amended C7 at a concrete three-entry history. -/
theorem claim_C7_amended_witness :
    witnessCycleInput.cycleHistory ≠ [] ∧
    (((predictNextCycle witnessCycleInput).isIrregular = true ↔
      7 < specStdDev (Cycle.recentCycles witnessCycleInput) ∨
        ∃ c ∈ Cycle.recentCycles witnessCycleInput, c < 21 ∨ 35 < c) ∧
    ((predictNextCycle witnessCycleInput).pcosRiskFlag = some true ↔
      3 ≤ ((Cycle.recentCycles witnessCycleInput).filter
            (fun c => decide (35 < c))).length ∨
        ((predictNextCycle witnessCycleInput).isIrregular = true ∧
          Cycle.acneVal witnessCycleInput = some true ∧
          (Cycle.crampsVal witnessCycleInput = some Cramps.severe ∨
            Cycle.moodVal witnessCycleInput = some Mood.irritable))) ∧
    ((predictNextCycle witnessCycleInput).pcosRiskFlag = Option.none ↔
      ((Cycle.recentCycles witnessCycleInput).filter
          (fun c => decide (35 < c))).length < 3 ∧
        (predictNextCycle witnessCycleInput).isIrregular = true ∧
        Cycle.acneVal witnessCycleInput = Option.none) ∧
    ((predictNextCycle witnessCycleInput).pcosRiskFlag = some true ∨
      (predictNextCycle witnessCycleInput).pcosRiskFlag = some false ∨
      (predictNextCycle witnessCycleInput).pcosRiskFlag = Option.none)) :=
  ⟨by simp [witnessCycleInput],
    claim_C7_amended witnessCycleInput (by simp [witnessCycleInput])⟩
